import Mathlib

/-
Verification of the agentic orchestration engine:
a shallow embedding, in Lean 4, of the registry, invoker, parameter
resolver, planner parsing, ReAct loop, summarizer and registry
persistence found in the repository sources
(agentic_service_router_streaming_summary.py and
api-selector/app-check.py), together with theorems settling the
specification claims about them.

External effects are modelled as explicit oracles passed in as
function arguments: the outbound HTTP layer is a function from the
issued request to an outcome, the LLM is a function from prompt data
to text, the filesystem is a function from path to optional content,
and the Python json module is a function from a string to a parse
outcome.  Everything the repository code itself computes is embedded
directly.
-/

namespace Spec2Proof

/-- JSON-like values, standing for the opaque Python values that flow
through the engine (parsed response bodies, parameter values, stored
step outputs). -/
inductive JsonVal where
  | null
  | bool (b : Bool)
  | num (n : Int)
  | str (s : String)
  | arr (elems : List JsonVal)
  | obj (fields : List (String × JsonVal))

/-- Python str.lower(): lowercase the string character by
character. -/
def strLower (s : String) : String :=
  String.mk (s.data.map Char.toLower)

/-- Assignment into a string-keyed association list with Python dict
semantics: replace in place when the key is present, append otherwise.
Embeds a Python `d[k] = v` on a dict rendered as its insertion-ordered
item list. -/
def putNamed {α : Type} (l : List (String × α)) (k : String) (v : α) :
    List (String × α) :=
  if l.any (fun p => p.1 == k) then
    l.map (fun p => if p.1 == k then (k, v) else p)
  else
    l ++ [(k, v)]

namespace router

/- ==================================================================
   agentic_service_router_streaming_summary.py
   ================================================================== -/

/-- ServiceConfig (dataclass, lines 65-83): configuration record for a
REST service.  Python `headers: Optional[Dict[str, str]] = None` is
rendered as an item list, with None collapsed to [] because the code
only reads it as `service.headers or {}`. -/
structure ServiceConfig where
  id : String
  name : String
  url : String
  http_type : String
  description : String
  input_params : List String
  output_params : List String
  headers : List (String × String)
  auth_token : Option String

/-- ExecutionResult (dataclass, lines 86-97): result of one service
execution.  The wall-clock timestamp is omitted: it is never read by
any logic the claims mention.  Python `data=None` is JsonVal.null. -/
structure ExecutionResult where
  service_name : String
  status : String
  data : JsonVal
  error : Option String

/-- ServiceManager.services (line 165): a dict keyed by service id,
rendered as its insertion-ordered value list. -/
def addService (services : List ServiceConfig) (c : ServiceConfig) :
    List ServiceConfig :=
  if services.any (fun s => s.id == c.id) then
    services.map (fun s => if s.id == c.id then c else s)
  else
    services ++ [c]

/-- ServiceManager.get_service (lines 178-180): lookup by exact id. -/
def getService (services : List ServiceConfig) (service_id : String) :
    Option ServiceConfig :=
  services.find? (fun s => s.id == service_id)

/-- ServiceManager.get_service_by_name (lines 186-191): iterate over the
services in insertion order and return the first whose lowercased name
equals the lowercased query; None when no name matches. -/
def getServiceByName (services : List ServiceConfig) (name : String) :
    Option ServiceConfig :=
  services.find? (fun s => strLower s.name == strLower name)

/-- An outbound HTTP request as assembled by
ServiceManager.execute_service (lines 209-224): verb, URL, headers,
query parameters (GET) and JSON body (POST/PUT). -/
structure HttpRequest where
  method : String
  url : String
  headers : List (String × String)
  query : List (String × JsonVal)
  body : Option (List (String × JsonVal))

/-- Outcome of one call through the requests library, as the oracle for
the HTTP boundary: either a response with a status code and an
optionally JSON-parsable body (none when response.json() would raise),
or a network-level RequestException (timeout, connection error)
carrying its message. -/
inductive HttpOutcome where
  | response (status : Nat) (jsonBody : Option JsonVal)
  | netError (msg : String)

/-- Python dict assignment headers["Authorization"] = ... (line 214). -/
def setHeader (hs : List (String × String)) (k v : String) :
    List (String × String) :=
  if hs.any (fun p => p.1 == k) then
    hs.map (fun p => if p.1 == k then (k, v) else p)
  else
    hs ++ [(k, v)]

/-- Header assembly of execute_service (lines 211-214): start from the
descriptor headers (or empty) and, whenever an auth token is
configured, assign the Authorization bearer header before any request
is issued. -/
def requestHeaders (svc : ServiceConfig) : List (String × String) :=
  match svc.auth_token with
  | some t => setHeader svc.headers "Authorization" ("Bearer " ++ t)
  | none => svc.headers

/-- Request assembly of execute_service (lines 216-231): GET restricts
the parameters to the declared input set and sends them as a query
string, POST and PUT send the full map as a JSON body, DELETE sends
neither, and any other verb issues no request at all. -/
def buildRequest (svc : ServiceConfig) (params : List (String × JsonVal)) :
    Option HttpRequest :=
  let hs := requestHeaders svc
  if svc.http_type == "GET" then
    some ⟨"GET", svc.url, hs,
      params.filter (fun kv => svc.input_params.contains kv.1), none⟩
  else if svc.http_type == "POST" then
    some ⟨"POST", svc.url, hs, [], some params⟩
  else if svc.http_type == "PUT" then
    some ⟨"PUT", svc.url, hs, [], some params⟩
  else if svc.http_type == "DELETE" then
    some ⟨"DELETE", svc.url, hs, [], none⟩
  else
    none

/-- The object projection of execute_service (lines 239, 243): a dict
comprehension retaining exactly the pairs whose key is among the
declared output parameters. -/
def filterPairs (outs : List String) (o : List (String × JsonVal)) :
    List (String × JsonVal) :=
  o.filter (fun kv => outs.contains kv.1)

/-- Output projection of execute_service (lines 236-245) for a service
with a non-empty declared output set: a list response is projected
per element (each element must be a dict, otherwise the Python
comprehension raises AttributeError, rendered here as none), a dict
response is projected directly, and any other value likewise raises. -/
def projectItem (outs : List String) : JsonVal → Option JsonVal
  | .obj o => some (JsonVal.obj (filterPairs outs o))
  | _ => none

/-- The list comprehension of lines 238-241: project every element in
order, the first non-dict element aborting with the AttributeError the
comprehension would raise. -/
def projectList (outs : List String) : List JsonVal → Option (List JsonVal)
  | [] => some []
  | item :: rest =>
    match projectItem outs item, projectList outs rest with
    | some x, some xs => some (x :: xs)
    | _, _ => none

/-- See projectItem: dispatch on the shape of the parsed response
(list first, as in the source). -/
def projectData (outs : List String) : JsonVal → Option JsonVal
  | .arr l => (projectList outs l).map JsonVal.arr
  | .obj o => some (JsonVal.obj (filterPairs outs o))
  | _ => none

/-- Outcome of the response-handling tail of execute_service: a plain
result, a caught requests.RequestException (which the except clause at
lines 253-260 turns into an error ExecutionResult and a log line), or
an exception escaping execute_service entirely. -/
inductive ProcOutcome where
  | ok (r : ExecutionResult)
  | caught (msg : String)
  | escaped

/-- Response handling of execute_service (lines 233-251):
raise_for_status turns any 4xx/5xx status into a caught HTTPError; a
body that is not valid JSON raises a caught JSONDecodeError; otherwise
the body is projected through the declared output parameters (an
empty declaration passes the data through unchanged), and a
non-dict/list shape under projection escapes uncaught. -/
def processResponse (svc : ServiceConfig) (status : Nat)
    (body : Option JsonVal) : ProcOutcome :=
  if 400 ≤ status ∧ status < 600 then
    .caught ("HTTP error: status " ++ toString status ++ " for url " ++ svc.url)
  else
    match body with
    | none => .caught "JSON decode error"
    | some data =>
      if svc.output_params.isEmpty then
        .ok ⟨svc.name, "success", data, none⟩
      else
        match projectData svc.output_params data with
        | some fd => .ok ⟨svc.name, "success", fd, none⟩
        | none => .escaped

/-- Observable outcome of one execute_service call: the request handed
to the HTTP layer (none when no request was issued), the returned
ExecutionResult (none when an exception escaped), and the log lines
written by the logger. -/
structure ExecOutcome where
  request : Option HttpRequest
  result : Option ExecutionResult
  logs : List String

/-- The body of execute_service after the registry lookup (lines
209-260), with the HTTP layer as an oracle: build the request, issue
it, and translate the outcome; every caught RequestException yields an
error ExecutionResult plus the single log line of line 254. -/
def invokeService (http : HttpRequest → HttpOutcome) (svc : ServiceConfig)
    (params : List (String × JsonVal)) : ExecOutcome :=
  match buildRequest svc params with
  | none =>
      ⟨none,
       some ⟨svc.name, "error", .null,
         some ("Unsupported HTTP method: " ++ svc.http_type)⟩,
       []⟩
  | some req =>
    match http req with
    | .netError msg =>
        ⟨some req, some ⟨svc.name, "error", .null, some msg⟩,
         ["Service execution failed: " ++ msg]⟩
    | .response status body =>
      match processResponse svc status body with
      | .ok r => ⟨some req, some r, []⟩
      | .caught msg =>
          ⟨some req, some ⟨svc.name, "error", .null, some msg⟩,
           ["Service execution failed: " ++ msg]⟩
      | .escaped => ⟨some req, none, []⟩

/-- ServiceManager.execute_service (lines 193-260): id lookup followed
by invocation; a missing id yields the not-found error result without
issuing a request. -/
def executeService (http : HttpRequest → HttpOutcome)
    (services : List ServiceConfig) (service_id : String)
    (params : List (String × JsonVal)) : ExecOutcome :=
  match getService services service_id with
  | none =>
      ⟨none,
       some ⟨"Unknown", "error", .null,
         some ("Service " ++ service_id ++ " not found")⟩,
       []⟩
  | some svc => invokeService http svc params

/-- Replace the configured auth token of a descriptor, leaving every
other field unchanged (used to state that the log output of an
invocation does not depend on the token). -/
def setToken (c : ServiceConfig) (t : Option String) : ServiceConfig :=
  ⟨c.id, c.name, c.url, c.http_type, c.description, c.input_params,
   c.output_params, c.headers, t⟩

/-- The normalization applied to a parsed Action label at line 531:
Python action.upper().replace("-", "_").  Since the needle is the
single character hyphen-minus and uppercasing leaves it unchanged, the
composition acts independently on every character: hyphen becomes
underscore, anything else is uppercased. -/
def normalizeAction (a : String) : String :=
  String.mk (a.data.map (fun c => if c == '-' then '_' else c.toUpper))

/-- The member names of the ActionType enum (lines 36-41).  Note that
FINAL_ANSWER is not among them. -/
def actionTypeMembers : List String :=
  ["EXECUTE_SERVICE", "ANALYZE_RESULT", "COMBINE_RESULTS", "EXTRACT_PARAMS"]

/-- Classification of the parsed Action label into the ActionType enum
recorded on the trace step (line 531): the normalized label when it is
a member of the enum, None otherwise. -/
def classifyAction (a : String) : Option String :=
  if actionTypeMembers.contains (normalizeAction a) then
    some (normalizeAction a)
  else
    none

/-- The behaviors _execute_action can dispatch to (lines 366-434). -/
inductive Dispatch where
  | executeService
  | analyzeResult
  | finalAnswer
  | unknown
deriving DecidableEq

/-- The dispatch performed by _execute_action (lines 369, 397, 410,
423): an exact, case-sensitive string comparison chain on the raw
parsed Action label. -/
def dispatchAction (a : String) : Dispatch :=
  if a == "EXECUTE_SERVICE" then .executeService
  else if a == "ANALYZE_RESULT" then .analyzeResult
  else if a == "FINAL_ANSWER" then .finalAnswer
  else .unknown

/-- Observable outcome of one process_prompt_streaming run (lines
473-619), restricted to what the step-budget claim is about: the
number of completed reasoning/action/observation triples, the final
value of the step_count counter, and the trace status when the loop
leaves. -/
structure LoopResult where
  triples : Nat
  stepCount : Nat
  status : String

/-- The while loop of process_prompt_streaming (lines 490-579), with
the LLM-and-parser pipeline as an oracle giving, for the i-th
iteration, the parsed Action label (none when _parse_agent_response
found no action).  Each iteration first increments step_count; a
parsed non-final action adds an action and an observation step and
then increments step_count by two more (so a full cycle consumes three
slots of the budget); the exact comparison at line 563 on
"FINAL_ANSWER" completes the trace and breaks; an unparsed action
marks the trace failed and breaks; exhausting the budget leaves the
trace status untouched (in_progress).

The fuel argument only drives the structural recursion; runReact below
supplies maxSteps, which is enough fuel for the fuel-zero case to be
reachable only when the while condition is already false, where it
returns the same in_progress result as the condition-false branch. -/
def reactGo (oracle : Nat → Option String) (maxSteps : Nat) :
    Nat → Nat → Nat → Nat → LoopResult
  | 0, _, sc, t => ⟨t, sc, "in_progress"⟩
  | fuel + 1, k, sc, t =>
    if sc < maxSteps then
      match oracle k with
      | some a =>
          if a == "FINAL_ANSWER" then
            ⟨t + 1, sc + 1, "completed"⟩
          else
            reactGo oracle maxSteps fuel (k + 1) (sc + 3) (t + 1)
      | none => ⟨t, sc + 1, "failed"⟩
    else
      ⟨t, sc, "in_progress"⟩

/-- The ReAct loop entered with step_count = 0 (line 487). -/
def runReact (oracle : Nat → Option String) (maxSteps : Nat) : LoopResult :=
  reactGo oracle maxSteps maxSteps 0 0 0

/-- The collection pass of _generate_summary (lines 440-443): keep,
keyed by service name, the data of exactly the execution results whose
status is success. -/
def collectSuccessData (results : List (String × ExecutionResult)) :
    List (String × JsonVal) :=
  results.filterMap (fun p =>
    if p.2.status == "success" then some (p.1, p.2.data) else none)

/-- Observable outcome of _generate_summary: the returned text and
whether the LLM was invoked. -/
structure SummaryOut where
  text : String
  llmCalled : Bool

/-- The _generate_summary method (lines 436-471), with the LLM as an oracle over
the original prompt and the collected data (prompt assembly at lines
448-464 only interpolates these into fixed text); none models
llm.invoke raising, which the except clause turns into the fixed
fallback string.  When nothing was collected the fixed no-data message
is returned without consulting the oracle. -/
def generateSummary (llm : String → List (String × JsonVal) → Option String)
    (userPrompt : String) (results : List (String × ExecutionResult)) :
    SummaryOut :=
  let collected := collectSuccessData results
  if collected.isEmpty then
    ⟨"No data was collected from services.", false⟩
  else
    match llm userPrompt collected with
    | some text => ⟨text, true⟩
    | none =>
        ⟨"Unable to generate summary. Raw data available in execution history.",
         true⟩

end router

namespace apichk

/- ==================================================================
   api-selector/app-check.py
   ================================================================== -/

/-- ApiDefinition (dataclass, lines 139-157): schema record for one
registry entry.  The free-form input/output schemas and example inputs
are opaque JSON values; the None-to-default normalization of
post-init is folded into construction. -/
structure ApiDefinition where
  name : String
  description : String
  url : String
  method : String
  input_schema : JsonVal
  output_schema : JsonVal
  type : String
  tags : List String
  domain : String
  example_inputs : JsonVal

/-- ApiRegistry (lines 160-236): a dict from api name to definition,
rendered as its insertion-ordered item list (every insertion keeps the
key equal to the definition name). -/
structure ApiRegistry where
  apis : List (String × ApiDefinition)

/-- ApiRegistry.get_api_by_name (lines 173-175): a plain dict get on
the exact name string. -/
def getApiByName (r : ApiRegistry) (name : String) : Option ApiDefinition :=
  (r.apis.find? (fun p => p.1 == name)).map (fun p => p.2)

/-- ApiRegistry.add_api (lines 177-179): dict assignment keyed by the
definition name. -/
def addApi (r : ApiRegistry) (d : ApiDefinition) : ApiRegistry :=
  ⟨putNamed r.apis d.name d⟩

/-- ApiRegistry.remove_api (lines 181-186): delete by exact name,
reporting whether a removal happened. -/
def removeApi (r : ApiRegistry) (name : String) : ApiRegistry × Bool :=
  if r.apis.any (fun p => p.1 == name) then
    (⟨r.apis.filter (fun p => p.1 != name)⟩, true)
  else
    (r, false)

/-- Oracle outcome of running json.load on the file content and taking
data.get("apis", []) in load_from_json (lines 192-194): malformed
means json.load raised JSONDecodeError with the given message;
badShape means json.load succeeded but the value is not a dict, so
data.get raises (with the given message) after self.apis was already
reset; apiItems gives the api dict list, where an entry none means
ApiDefinition(**api_dict) raises for that entry. -/
inductive RegistryParse where
  | malformed (msg : String)
  | badShape (msg : String)
  | apiItems (items : List (Option ApiDefinition))

/-- Result of load_from_json: the registry contents afterwards plus
the error messages reported through st.error. -/
structure LoadOut where
  registry : ApiRegistry
  errors : List String

/-- The insertion loop of load_from_json (lines 194-196) started from
the freshly cleared dict: insert definitions keyed by name until an
entry whose construction raises stops the loop (the partial contents
remain, the exception is reported). -/
def insertItems (apis : List (String × ApiDefinition)) :
    List (Option ApiDefinition) → List (String × ApiDefinition) × Bool
  | [] => (apis, true)
  | none :: _ => (apis, false)
  | some d :: rest => insertItems (putNamed apis d.name d) rest

/-- ApiRegistry.load_from_json (lines 188-201) with the filesystem and
the json module as oracles.  A missing file (FileNotFoundError) is
swallowed by the dedicated except clause, leaving the registry exactly
as it was with nothing reported.  A json.load failure happens before
self.apis is cleared, so the registry is likewise untouched but the
error is reported.  A value of the wrong shape fails after the clear,
leaving an empty registry plus a reported error; a failing entry
constructor leaves the partial contents plus a reported error. -/
def loadFromJson (parse : String → RegistryParse)
    (fs : String → Option String) (r : ApiRegistry) (path : String) :
    LoadOut :=
  match fs path with
  | none => ⟨r, []⟩
  | some content =>
    match parse content with
    | .malformed msg => ⟨r, ["Error loading registry: " ++ msg]⟩
    | .badShape msg => ⟨⟨[]⟩, ["Error loading registry: " ++ msg]⟩
    | .apiItems items =>
      match insertItems [] items with
      | (apis, true) => ⟨⟨apis⟩, []⟩
      | (apis, false) => ⟨⟨apis⟩, ["Error loading registry: bad api entry"]⟩

/-- Python str.find for a single character: index of the first
occurrence, none standing for the -1 sentinel. -/
def findChar (c : Char) (s : List Char) : Option Nat :=
  s.findIdx? (fun x => x == c)

/-- Python str.rfind for a single character: index of the last
occurrence, none standing for the -1 sentinel. -/
def rfindChar (c : Char) (s : List Char) : Option Nat :=
  (s.reverse.findIdx? (fun x => x == c)).map (fun i => s.length - 1 - i)

/-- The span extraction of planning_node (lines 510-516):
json_start = llm_response.find(open-brace), json_end =
llm_response.rfind(close-brace) + 1; when json_start is at least 0 and
json_end exceeds json_start the slice between them is handed to
json.loads, otherwise the whole response is. -/
def attemptedSpan (s : List Char) : List Char :=
  match findChar '{' s, rfindChar '}' s with
  | some i, some j => if i < j + 1 then (s.drop i).take (j + 1 - i) else s
  | _, _ => s

/-- Oracle outcome of json.loads on the attempted string in
planning_node: decodeFailed carries the JSONDecodeError message;
nonObject (carrying the AttributeError message raised afterwards by
parsed_plan.get) covers a successful parse to a value that is not a
dict; object carries the dict fields "plan" and "reasoning" when
present. -/
inductive PlanParse where
  | decodeFailed (msg : String)
  | nonObject (msg : String)
  | object (plan : Option (List JsonVal)) (reasoning : Option String)

/-- The fields of AgentState that planning_node writes (lines
518-529). -/
structure PlanningState where
  plan : List JsonVal
  plan_reasoning : String
  error : Option String

/-- planning_node (lines 449-531) with the LLM response given (the
llm_chat wrapper returns a string and never raises) and json.loads as
an oracle.  A JSONDecodeError is caught by its dedicated clause, which
records the error, empties the plan, and stores the raw response for
debugging; any other exception (such as parsed_plan.get on a non-dict)
falls to the generic clause, which records the error and empties both
the plan and the reasoning; a parsed dict fills the state from its
"plan" and "reasoning" entries with list/string defaults. -/
def planningNode (parse : String → PlanParse) (llmResponse : String) :
    PlanningState :=
  let attempt := String.mk (attemptedSpan llmResponse.data)
  match parse attempt with
  | .decodeFailed msg =>
      ⟨[], llmResponse,
       some ("Failed to parse LLM planning response as JSON: " ++ msg)⟩
  | .nonObject msg =>
      ⟨[], "", some ("Planning error: " ++ msg)⟩
  | .object plan? reasoning? =>
      ⟨plan?.getD [], reasoning?.getD "", none⟩

/-- The source tag of one planned input parameter (prompt contract at
line 489 and dispatch at lines 576-587): the literal strings constant
and user_query, a well-formed step_N reference carrying the number N,
or any other string not starting with step_, which falls to the final
else branch.  A malformed source that starts with step_ but carries no
number makes the Python int() call raise and is outside this model and
outside every claim about the resolver. -/
inductive ParamSource where
  | constant
  | userQuery
  | stepRef (n : Nat)
  | other (s : String)

/-- One entry of a plan step input specification: either a dict
carrying value and source (with the dict-get defaults of lines 572-573
already applied: a missing value is null, a missing source is
constant), or a bare non-dict value used verbatim (line 589). -/
inductive ParamInfo where
  | spec (value : JsonVal) (source : ParamSource)
  | plain (v : JsonVal)

/-- The execute_rest_api result dict (lines 355-431) as stored in
step_outputs, reduced to the fields execution_node reads: the
success flag, the data payload (present on every success result), and
the error message. -/
structure ApiCallResult where
  success : Bool
  data : JsonVal
  error : Option String

/-- Dict lookup in the step_outputs store keyed by step number. -/
def lookupStep (outs : List (Nat × ApiCallResult)) (n : Nat) :
    Option ApiCallResult :=
  (outs.find? (fun p => p.1 == n)).map (fun p => p.2)

/-- Dict assignment step_outputs[step_num] = result (line 609). -/
def putStep (outs : List (Nat × ApiCallResult)) (n : Nat)
    (r : ApiCallResult) : List (Nat × ApiCallResult) :=
  if outs.any (fun p => p.1 == n) then
    outs.map (fun p => if p.1 == n then (n, r) else p)
  else
    outs ++ [(n, r)]

/-- The per-parameter resolution of execution_node (lines 570-589):
constant and user_query sources use the planner-supplied literal
value; a step_N source substitutes the data field of the recorded
output of step N when one exists and otherwise falls back to the
literal value; any other source string uses the literal value; a
non-dict entry is used verbatim. -/
def resolveParam (outs : List (Nat × ApiCallResult)) : ParamInfo → JsonVal
  | .plain v => v
  | .spec v src =>
    match src with
    | .constant => v
    | .userQuery => v
    | .stepRef n =>
      match lookupStep outs n with
      | some r => r.data
      | none => v
    | .other _ => v

/-- One plan step as execution_node reads it (lines 550-568), with the
dict-get defaults applied. -/
structure PlanStep where
  step : Nat
  api_name : String
  rationale : String
  inputs : List (String × ParamInfo)

/-- One entry of execution_results (lines 557-605): either the
not-found record appended when the registry lookup fails, or the
record of an executed call with its resolved inputs and outcome. -/
inductive ExecRecord where
  | notFound (step : Nat) (api_name : String)
  | executed (step : Nat) (api_name : String)
      (inputs : List (String × JsonVal)) (result : ApiCallResult)

/-- The plan walk of execution_node (lines 550-609) with
execute_rest_api as an oracle: look the api up by exact name (a miss
appends the not-found record and continues with the next step),
resolve every input against the current step_outputs, invoke, append
the record, and store the result keyed by step number only when it
succeeded. -/
def execGo (registry : ApiRegistry)
    (callApi : ApiDefinition → List (String × JsonVal) → ApiCallResult)
    (outs : List (Nat × ApiCallResult)) :
    List PlanStep → List ExecRecord × List (Nat × ApiCallResult)
  | [] => ([], outs)
  | s :: rest =>
    match getApiByName registry s.api_name with
    | none =>
      let tail := execGo registry callApi outs rest
      (.notFound s.step s.api_name :: tail.1, tail.2)
    | some apiDef =>
      let resolved := s.inputs.map (fun p => (p.1, resolveParam outs p.2))
      let result := callApi apiDef resolved
      let outs2 := if result.success then putStep outs s.step result else outs
      let tail := execGo registry callApi outs2 rest
      (.executed s.step s.api_name resolved result :: tail.1, tail.2)

/-- execution_node (lines 534-612): walk the whole plan starting from
an empty step_outputs store and return the execution_results list. -/
def executionNode (registry : ApiRegistry)
    (callApi : ApiDefinition → List (String × JsonVal) → ApiCallResult)
    (plan : List PlanStep) : List ExecRecord :=
  (execGo registry callApi [] plan).1

/-- json.loads modelled at the concrete raw output "[1, 2]": the
string is valid JSON and loads to the array of 1 and 2, which is not a
dict, so the subsequent parsed_plan.get raises AttributeError (the
nonObject outcome); any other string is irrelevant to the statement
using this oracle and is mapped to a decode failure. -/
def arrayParse : String → PlanParse := fun s =>
  if s == "[1, 2]" then .nonObject "list object has no attribute get"
  else .decodeFailed "Expecting value"

/-- The trade_booking_status sample entry of initialize_sample_apis
(lines 247-261), with the free-text schemas elided to null (they are
never consulted by lookups). -/
def tradeApi : ApiDefinition :=
  ⟨"trade_booking_status",
   "Retrieves the current booking status of trades.",
   "https://mock-backoffice.internal/api/v1/trades/status",
   "POST", .null, .null, "rest", [], "trade_lifecycle", .null⟩

/-- A registry already holding one entry, as built by
init_session_state (line 703) before load_from_json runs. -/
def seededRegistry : ApiRegistry :=
  ⟨[("trade_booking_status", tradeApi)]⟩

end apichk

namespace router

/-- The Weather Service entry of _add_default_services (lines
648-656). -/
def sampleSvc : ServiceConfig :=
  ⟨"weather_service", "Weather Service",
   "https://api.open-meteo.com/v1/forecast", "GET",
   "Get weather forecast for a location",
   ["latitude", "longitude", "current"], ["current", "timezone"],
   [], none⟩

/-- A GET service configured with a bearer token and no declared
output parameters. -/
def tokenSvc : ServiceConfig :=
  ⟨"s1", "Svc", "https://x.example", "GET", "", [], [], [],
   some "secret"⟩

end router

/- ==================================================================
   Helper lemmas
   ================================================================== -/

/-- Assigning a header always leaves the assigned pair in the map. -/
theorem mem_setHeader (hs : List (String × String)) (k v : String) :
    (k, v) ∈ router.setHeader hs k v := by
  unfold router.setHeader
  by_cases h : hs.any (fun p => p.1 == k)
  · simp only [h, if_true]
    rcases List.any_eq_true.mp h with ⟨p, hp, hpk⟩
    exact List.mem_map.mpr ⟨p, hp, by simp [hpk]⟩
  · simp [h]

/-- With a configured token, the assembled headers contain the bearer
Authorization pair. -/
theorem auth_mem_requestHeaders (svc : router.ServiceConfig) (t : String)
    (h : svc.auth_token = some t) :
    ("Authorization", "Bearer " ++ t) ∈ router.requestHeaders svc := by
  unfold router.requestHeaders
  rw [h]
  exact mem_setHeader svc.headers "Authorization" ("Bearer " ++ t)

/-- Every request buildRequest issues carries exactly the assembled
headers. -/
theorem buildRequest_headers (svc : router.ServiceConfig)
    (params : List (String × JsonVal)) (req : router.HttpRequest)
    (h : router.buildRequest svc params = some req) :
    req.headers = router.requestHeaders svc := by
  unfold router.buildRequest at h
  split_ifs at h <;>
    simp only [Option.some.injEq] at h <;> subst h <;> rfl

/-- The request handed to the HTTP layer by invokeService is the built
request, whatever the HTTP layer then answers. -/
theorem invokeService_request (http : router.HttpRequest → router.HttpOutcome)
    (svc : router.ServiceConfig) (params : List (String × JsonVal)) :
    (router.invokeService http svc params).request
      = router.buildRequest svc params := by
  unfold router.invokeService
  cases hb : router.buildRequest svc params with
  | none => rfl
  | some req =>
    dsimp only
    cases http req with
    | netError m => rfl
    | response st body =>
      dsimp only
      cases router.processResponse svc st body <;> rfl

/-- Holding the HTTP outcome fixed, the log lines written by an
invocation are the same whatever token is configured: the code never
writes the token into a log message. -/
theorem invokeService_logs_token_indep
    (outcome : router.HttpOutcome) (base : router.ServiceConfig)
    (t₁ t₂ : String) (params : List (String × JsonVal)) :
    (router.invokeService (fun _ => outcome)
        (router.setToken base (some t₁)) params).logs
      = (router.invokeService (fun _ => outcome)
          (router.setToken base (some t₂)) params).logs := by
  have hproc : ∀ st body,
      router.processResponse (router.setToken base (some t₁)) st body
        = router.processResponse (router.setToken base (some t₂)) st body := by
    intro st body
    unfold router.processResponse router.setToken
    rfl
  unfold router.invokeService router.buildRequest router.requestHeaders
    router.setToken
  dsimp only
  split_ifs <;> dsimp only <;>
    first
    | rfl
    | (cases outcome with
       | netError m => rfl
       | response st body =>
         dsimp only
         have h := hproc st body
         unfold router.setToken at h
         rw [h]
         cases router.processResponse
             ⟨base.id, base.name, base.url, base.http_type, base.description,
              base.input_params, base.output_params, base.headers,
              some t₂⟩ st body <;> rfl)

/-- processResponse reads only the name, url and declared output
parameters of the descriptor. -/
theorem processResponse_ext (s₁ s₂ : router.ServiceConfig) (status : Nat)
    (body : Option JsonVal) (hn : s₁.name = s₂.name) (hu : s₁.url = s₂.url)
    (ho : s₁.output_params = s₂.output_params) :
    router.processResponse s₁ status body
      = router.processResponse s₂ status body := by
  unfold router.processResponse
  rw [hn, hu, ho]

/-- The loop can complete at most one triple per remaining budget
slot: the triple count of any run is bounded by the starting count
plus the remaining budget. -/
theorem reactGo_triples_le (oracle : Nat → Option String) (maxSteps : Nat) :
    ∀ fuel k sc t,
      (router.reactGo oracle maxSteps fuel k sc t).triples
        ≤ t + (maxSteps - sc) := by
  intro fuel
  induction fuel with
  | zero =>
    intro k sc t
    simp [router.reactGo]
  | succ n ih =>
    intro k sc t
    unfold router.reactGo
    by_cases h : sc < maxSteps
    · simp only [h, if_true]
      cases oracle k with
      | none => simp
      | some a =>
        by_cases hf : a == "FINAL_ANSWER"
        · simp only [hf, if_true]
          have : 1 ≤ maxSteps - sc := by omega
          simp
          omega
        · simp only [hf, if_false]
          calc (router.reactGo oracle maxSteps n (k + 1) (sc + 3) (t + 1)).triples
              ≤ (t + 1) + (maxSteps - (sc + 3)) := ih (k + 1) (sc + 3) (t + 1)
            _ ≤ t + (maxSteps - sc) := by omega
    · simp [h]

/-- Projecting a list of objects element by element always succeeds
and filters each object through the declared keys. -/
theorem projectList_map_obj (outs : List String)
    (ls : List (List (String × JsonVal))) :
    router.projectList outs (ls.map JsonVal.obj)
      = some (ls.map (fun o => JsonVal.obj (router.filterPairs outs o))) := by
  induction ls with
  | nil => rfl
  | cons o rest ih =>
    simp [router.projectList, router.projectItem, ih]

/-- Storing a success result keeps every stored entry a success. -/
theorem putStep_success (outs : List (Nat × apichk.ApiCallResult)) (n : Nat)
    (r : apichk.ApiCallResult) (hall : ∀ e ∈ outs, e.2.success = true)
    (hr : r.success = true) :
    ∀ e ∈ apichk.putStep outs n r, e.2.success = true := by
  intro e he
  unfold apichk.putStep at he
  by_cases h : outs.any (fun p => p.1 == n)
  · simp only [h, if_true] at he
    rcases List.mem_map.mp he with ⟨p, hp, hpe⟩
    by_cases hk : p.1 == n
    · simp only [hk, if_true] at hpe
      rw [← hpe]
      exact hr
    · simp only [hk, if_false] at hpe
      rw [← hpe]
      exact hall p hp
  · simp only [h, if_false] at he
    rcases List.mem_append.mp he with hl | hr2
    · exact hall e hl
    · rcases List.mem_singleton.mp hr2 with rfl
      exact hr

/-- Every entry of the step_outputs store built by the execution walk
is a success result: failed invocations are never recorded. -/
theorem execGo_store_success (registry : apichk.ApiRegistry)
    (callApi : apichk.ApiDefinition → List (String × JsonVal) →
      apichk.ApiCallResult) :
    ∀ (plan : List apichk.PlanStep) (outs : List (Nat × apichk.ApiCallResult)),
      (∀ e ∈ outs, e.2.success = true) →
      ∀ e ∈ (apichk.execGo registry callApi outs plan).2, e.2.success = true := by
  intro plan
  induction plan with
  | nil =>
    intro outs hall e he
    exact hall e he
  | cons s rest ih =>
    intro outs hall e he
    unfold apichk.execGo at he
    cases hreg : apichk.getApiByName registry s.api_name with
    | none =>
      rw [hreg] at he
      dsimp only at he
      exact ih outs hall e he
    | some apiDef =>
      rw [hreg] at he
      dsimp only at he
      by_cases hs : (callApi apiDef
          (s.inputs.map (fun p => (p.1, apichk.resolveParam outs p.2)))).success
      · simp only [hs, if_true] at he
        exact ih _ (putStep_success outs s.step _ hall hs) e he
      · simp only [hs, if_false] at he
        exact ih outs hall e he

/- ==================================================================
   Claim theorems
   ================================================================== -/

/-- C1: for a plan step input with source step_N, the resolver
substitutes the entire data of the recorded ExecutionResult of step N
when one is present, falls back to the literal planner-supplied value
when step N is absent from the store, and the execution walk records
only successful results in that store (so a failed step N also takes
the fallback); resolution is a total function and never raises. -/
theorem C1_stepref_resolution
    (outs : List (Nat × apichk.ApiCallResult)) (v : JsonVal) (n : Nat)
    (r : apichk.ApiCallResult) (registry : apichk.ApiRegistry)
    (callApi : apichk.ApiDefinition → List (String × JsonVal) →
      apichk.ApiCallResult)
    (plan : List apichk.PlanStep)
    (hstore : ∀ e ∈ outs, e.2.success = true) :
    (apichk.lookupStep outs n = some r →
        apichk.resolveParam outs (.spec v (.stepRef n)) = r.data)
    ∧ (apichk.lookupStep outs n = none →
        apichk.resolveParam outs (.spec v (.stepRef n)) = v)
    ∧ (∀ e ∈ (apichk.execGo registry callApi outs plan).2,
        e.2.success = true) := by
  refine ⟨?_, ?_, ?_⟩
  · intro h
    simp [apichk.resolveParam, h]
  · intro h
    simp [apichk.resolveParam, h]
  · exact execGo_store_success registry callApi plan outs hstore

/-- C1 witness: with an empty store, a step_1 reference resolves to
the literal fallback value. -/
theorem C1_stepref_resolution_witness :
    apichk.resolveParam []
        (apichk.ParamInfo.spec (JsonVal.str "fallback")
          (apichk.ParamSource.stepRef 1))
      = JsonVal.str "fallback" :=
  (C1_stepref_resolution [] (JsonVal.str "fallback") 1
      ⟨true, JsonVal.null, none⟩ ⟨[]⟩ (fun _ _ => ⟨false, JsonVal.null, none⟩)
      [] (by intro e he; cases he)).2.1 rfl

/-- C2: the ReAct loop terminates with at most max_steps completed
reasoning/action/observation triples; a parsed non-final action cycle
advances the step budget by exactly three slots, and a FINAL_ANSWER
action ends the loop immediately with the trace completed. -/
theorem C2_react_step_budget (oracle : Nat → Option String)
    (maxSteps : Nat) (hmax : 1 ≤ maxSteps) (fuel k sc t : Nat) (a : String) :
    (router.runReact oracle maxSteps).triples ≤ maxSteps
    ∧ (sc < maxSteps → oracle k = some a → (a == "FINAL_ANSWER") = false →
        router.reactGo oracle maxSteps (fuel + 1) k sc t
          = router.reactGo oracle maxSteps fuel (k + 1) (sc + 3) (t + 1))
    ∧ (sc < maxSteps → oracle k = some a → (a == "FINAL_ANSWER") = true →
        router.reactGo oracle maxSteps (fuel + 1) k sc t
          = ⟨t + 1, sc + 1, "completed"⟩) := by
  refine ⟨?_, ?_, ?_⟩
  · have h := reactGo_triples_le oracle maxSteps maxSteps 0 0 0
    simpa [router.runReact] using h
  · intro h ho hf
    conv_lhs => unfold router.reactGo
    simp [h, ho, hf]
  · intro h ho hf
    conv_lhs => unfold router.reactGo
    simp [h, ho, hf]

/-- C2 witness: with a budget of three and an oracle that immediately
answers FINAL_ANSWER, the loop completes at most three triples. -/
theorem C2_react_step_budget_witness :
    (router.runReact (fun _ => some "FINAL_ANSWER") 3).triples ≤ 3 :=
  (C2_react_step_budget (fun _ => some "FINAL_ANSWER") 3 (by decide)
      0 0 0 0 "FINAL_ANSWER").1

/-- C3: for a descriptor with a non-empty declared output set and a
successfully parsed JSON response on the success path, an object
response is projected to exactly the declared keys that are present,
values unchanged; an array response gets the same projection applied
to each element. -/
theorem C3_output_projection (svc : router.ServiceConfig) (status : Nat)
    (o : List (String × JsonVal)) (ls : List (List (String × JsonVal)))
    (k : String) (v : JsonVal)
    (houts : svc.output_params ≠ []) (hstatus : status < 400) :
    router.processResponse svc status (some (.obj o))
      = .ok ⟨svc.name, "success",
          .obj (router.filterPairs svc.output_params o), none⟩
    ∧ ((k, v) ∈ router.filterPairs svc.output_params o ↔
        ((k, v) ∈ o ∧ k ∈ svc.output_params))
    ∧ router.processResponse svc status (some (.arr (ls.map JsonVal.obj)))
      = .ok ⟨svc.name, "success",
          .arr (ls.map (fun ob =>
            JsonVal.obj (router.filterPairs svc.output_params ob))), none⟩ := by
  have hne : svc.output_params.isEmpty = false := by
    cases h : svc.output_params with
    | nil => exact absurd h houts
    | cons x xs => rfl
  refine ⟨?_, ?_, ?_⟩
  · unfold router.processResponse
    have : ¬ (400 ≤ status ∧ status < 600) := by omega
    simp [this, hne, router.projectData]
  · simp [router.filterPairs, List.mem_filter, List.elem_iff]
  · unfold router.processResponse
    have : ¬ (400 ≤ status ∧ status < 600) := by omega
    simp [this, hne, router.projectData, projectList_map_obj]

/-- C3 witness: projecting a concrete weather response through the
Weather Service declared outputs keeps exactly the declared key. -/
theorem C3_output_projection_witness :
    router.processResponse router.sampleSvc 200
        (some (.obj [("current", JsonVal.num 21)]))
      = .ok ⟨router.sampleSvc.name, "success",
          .obj (router.filterPairs router.sampleSvc.output_params
            [("current", JsonVal.num 21)]), none⟩ :=
  (C3_output_projection router.sampleSvc 200 [("current", JsonVal.num 21)]
      [] "current" (JsonVal.num 21) (by decide) (by decide)).1

/-- C4 counterexample: the raw model output "[1, 2]" contains no
parsable JSON object (it is a JSON array), the Planner records a
planning error and an empty plan, but the raw text is NOT preserved
for diagnostics: the generic exception branch stores the empty string
in plan_reasoning instead of the response. -/
theorem C4_raw_text_lost_cex :
    apichk.planningNode apichk.arrayParse "[1, 2]"
      = ⟨[], "", some "Planning error: list object has no attribute get"⟩
    ∧ ("" : String) ≠ "[1, 2]" := by
  constructor
  · rfl
  · decide

/-- C4 amended: a JSON decode failure on the attempted span yields a
recorded planning error, an empty plan, the raw response preserved in
plan_reasoning, and no exception; a response parsing to a non-object
JSON value likewise yields a recorded error and an empty plan without
raising, but stores the empty string instead of the raw text. -/
theorem C4_planner_parse_failure (parse : String → apichk.PlanParse)
    (resp msg : String)
    (hd : parse (String.mk (apichk.attemptedSpan resp.data))
      = .decodeFailed msg) :
    apichk.planningNode parse resp
      = ⟨[], resp,
          some ("Failed to parse LLM planning response as JSON: " ++ msg)⟩
    ∧ ∀ (parse2 : String → apichk.PlanParse) (resp2 msg2 : String),
        parse2 (String.mk (apichk.attemptedSpan resp2.data))
          = .nonObject msg2 →
        apichk.planningNode parse2 resp2
          = ⟨[], "", some ("Planning error: " ++ msg2)⟩ := by
  constructor
  · unfold apichk.planningNode
    dsimp only
    rw [hd]
  · intro parse2 resp2 msg2 h2
    unfold apichk.planningNode
    dsimp only
    rw [h2]

/-- C4 witness: a response with no JSON braces at all ends in the
decode-failure state with the raw text kept. -/
theorem C4_planner_parse_failure_witness :
    apichk.planningNode (fun _ => apichk.PlanParse.decodeFailed "Expecting value")
        "no json here"
      = ⟨[], "no json here",
          some ("Failed to parse LLM planning response as JSON: "
            ++ "Expecting value")⟩ :=
  (C4_planner_parse_failure (fun _ => apichk.PlanParse.decodeFailed "Expecting value")
      "no json here" "Expecting value" rfl).1

/-- C5 counterexample: a service with a configured bearer token,
called against an HTTP layer that answers 200 (a 2xx response), still
receives the Authorization header on the issued request, so the
injection is not restricted to non-2xx responses. -/
theorem C5_token_injected_on_2xx_cex :
    (router.executeService
        (fun _ => router.HttpOutcome.response 200 (some JsonVal.null))
        [router.tokenSvc] "s1" []).request
      = some ⟨"GET", "https://x.example",
          [("Authorization", "Bearer secret")], [], none⟩
    ∧ (router.executeService
        (fun _ => router.HttpOutcome.response 200 (some JsonVal.null))
        [router.tokenSvc] "s1" []).result
      = some ⟨"Svc", "success", JsonVal.null, none⟩ := by
  constructor
  · rfl
  · rfl

/-- C5 amended: whenever the descriptor has a configured bearer token,
every request the invoker issues carries the Authorization bearer
header; the issued request is computed before and independently of the
HTTP response; and, holding the HTTP outcome fixed, the log output
does not depend on the token. -/
theorem C5_bearer_injection_unconditional
    (http http2 : router.HttpRequest → router.HttpOutcome)
    (svc base : router.ServiceConfig) (t t₁ t₂ : String)
    (params : List (String × JsonVal)) (outcome : router.HttpOutcome)
    (req : router.HttpRequest) (htok : svc.auth_token = some t) :
    ((router.invokeService http svc params).request = some req →
        ("Authorization", "Bearer " ++ t) ∈ req.headers)
    ∧ (router.invokeService http svc params).request
        = (router.invokeService http2 svc params).request
    ∧ (router.invokeService (fun _ => outcome)
          (router.setToken base (some t₁)) params).logs
        = (router.invokeService (fun _ => outcome)
            (router.setToken base (some t₂)) params).logs := by
  refine ⟨?_, ?_, ?_⟩
  · intro h
    rw [invokeService_request] at h
    rw [buildRequest_headers svc params req h]
    exact auth_mem_requestHeaders svc t htok
  · rw [invokeService_request, invokeService_request]
  · exact invokeService_logs_token_indep outcome base t₁ t₂ params

/-- C5 witness: the token service issues a GET request carrying its
bearer header. -/
theorem C5_bearer_injection_unconditional_witness :
    ("Authorization", "Bearer " ++ "secret")
      ∈ (⟨"GET", "https://x.example",
          [("Authorization", "Bearer secret")], [], none⟩ :
            router.HttpRequest).headers :=
  (C5_bearer_injection_unconditional
      (fun _ => router.HttpOutcome.response 200 (some JsonVal.null))
      (fun _ => router.HttpOutcome.response 200 (some JsonVal.null))
      router.tokenSvc router.tokenSvc "secret" "a" "b" []
      (router.HttpOutcome.response 200 (some JsonVal.null))
      ⟨"GET", "https://x.example", [("Authorization", "Bearer secret")],
        [], none⟩ rfl).1 rfl

/-- C6 counterexample: the labels execute_service and EXECUTE_SERVICE
differ only in letter case and normalize identically, yet
_execute_action dispatches them to different behaviors: the lowercase
label falls through to the unknown-action branch. -/
theorem C6_dispatch_case_sensitive_cex :
    router.dispatchAction "execute_service" = router.Dispatch.unknown
    ∧ router.dispatchAction "EXECUTE_SERVICE"
        = router.Dispatch.executeService
    ∧ router.normalizeAction "execute_service"
        = router.normalizeAction "EXECUTE_SERVICE"
    ∧ router.dispatchAction "execute_service"
        ≠ router.dispatchAction "EXECUTE_SERVICE" := by
  refine ⟨rfl, rfl, by decide, by decide⟩

/-- C6 amended: the case-insensitive, hyphen-normalizing matching
applies only to the classification of the label into the ActionType
enum recorded on the trace step (an enum that does not even contain
FINAL_ANSWER); dispatch to behavior is an exact case-sensitive string
match, so labels differing only in case are not dispatched alike. -/
theorem C6_action_matching (a b x : String)
    (h : router.normalizeAction a = router.normalizeAction b) :
    router.classifyAction a = router.classifyAction b
    ∧ (router.dispatchAction x = router.Dispatch.executeService ↔
        x = "EXECUTE_SERVICE")
    ∧ (router.dispatchAction x = router.Dispatch.finalAnswer ↔
        x = "FINAL_ANSWER")
    ∧ router.classifyAction "FINAL_ANSWER" = none := by
  refine ⟨?_, ?_, ?_, by decide⟩
  · unfold router.classifyAction
    rw [h]
  · unfold router.dispatchAction
    split_ifs with h1 h2 h3 <;> simp_all
  · unfold router.dispatchAction
    split_ifs with h1 h2 h3 <;> simp_all

/-- C6 witness: a hyphenated lowercase label classifies like the
canonical uppercase one. -/
theorem C6_action_matching_witness :
    router.classifyAction "execute-service"
      = router.classifyAction "EXECUTE_SERVICE" :=
  (C6_action_matching "execute-service" "EXECUTE_SERVICE" "EXECUTE_SERVICE"
      (by decide)).1

/-- C7 counterexample: the api-selector registry lookup is an exact
dict get, not case-insensitive: an entry registered under its
lowercase name is not found when queried in uppercase, although the
two names agree up to letter case. -/
theorem C7_api_lookup_case_sensitive_cex :
    apichk.getApiByName (apichk.addApi ⟨[]⟩ apichk.tradeApi)
        "TRADE_BOOKING_STATUS" = none
    ∧ strLower "TRADE_BOOKING_STATUS" = strLower "trade_booking_status"
    ∧ apichk.getApiByName (apichk.addApi ⟨[]⟩ apichk.tradeApi)
        "trade_booking_status" = some apichk.tradeApi := by
  refine ⟨rfl, by decide, rfl⟩

/-- C7 amended: the streaming router ServiceManager lookup by name is
case-insensitive (two queries agreeing up to case give the same
answer, a hit is a registered service whose name matches up to case,
and a miss is an explicit none exactly when no registered name
matches); the api-selector ApiRegistry lookup, by contrast, is an
exact case-sensitive dict lookup whose hits match the queried name
exactly. -/
theorem C7_lookup_by_name (l : List router.ServiceConfig)
    (n₁ n₂ n : String) (s : router.ServiceConfig)
    (apis : List (String × apichk.ApiDefinition)) (nm : String)
    (d : apichk.ApiDefinition) (h12 : strLower n₁ = strLower n₂) :
    router.getServiceByName l n₁ = router.getServiceByName l n₂
    ∧ (router.getServiceByName l n = none ↔
        ∀ c ∈ l, strLower c.name ≠ strLower n)
    ∧ (router.getServiceByName l n = some s →
        s ∈ l ∧ strLower s.name = strLower n)
    ∧ (apichk.getApiByName ⟨apis⟩ nm = some d → (nm, d) ∈ apis) := by
  refine ⟨?_, ?_, ?_, ?_⟩
  · unfold router.getServiceByName
    rw [h12]
  · unfold router.getServiceByName
    rw [List.find?_eq_none]
    constructor
    · intro h c hc
      have := h c hc
      simpa using this
    · intro h c hc
      simp only [beq_iff_eq]
      exact h c hc
  · intro h
    refine ⟨List.mem_of_find?_eq_some h, ?_⟩
    have := List.find?_some h
    simpa using this
  · intro h
    unfold apichk.getApiByName at h
    cases hf : (apis.find? (fun p => p.1 == nm)) with
    | none =>
      rw [hf] at h
      cases h
    | some p =>
      rw [hf] at h
      have h : p.2 = d := by simpa using h
      have hm : p ∈ apis := List.mem_of_find?_eq_some hf
      have hk : p.1 = nm := by
        have := List.find?_some hf
        simpa using this
      have : (nm, d) = p := by
        cases p with
        | mk a b =>
          simp only at hk h
          rw [hk, h]
      rw [this]
      exact hm

/-- C7 witness: the Weather Service is found under a lowercase
query just as under its registered name. -/
theorem C7_lookup_by_name_witness :
    router.getServiceByName [router.sampleSvc] "weather service"
      = router.getServiceByName [router.sampleSvc] "Weather Service" :=
  (C7_lookup_by_name [router.sampleSvc] "weather service" "Weather Service"
      "x" router.sampleSvc [] "" apichk.tradeApi (by decide)).1

/-- C8 counterexample: loading from a missing file leaves a seeded
registry exactly as it was, which is not the empty registry the claim
requires for every starting state. -/
theorem C8_missing_file_not_empty_cex :
    (apichk.loadFromJson (fun _ => apichk.RegistryParse.malformed "unused")
        (fun _ => none) apichk.seededRegistry "api_registry.json").registry
      = apichk.seededRegistry
    ∧ apichk.seededRegistry.apis ≠ [] := by
  constructor
  · rfl
  · intro h
    cases h

/-- C8 amended: loading from a missing path leaves the registry
unchanged and reports no error (so a freshly created empty registry
stays empty), and loading malformed JSON leaves the registry unchanged
while reporting the error, never crashing the host (the load is a
total function). -/
theorem C8_load_missing_or_malformed
    (parse : String → apichk.RegistryParse) (fs : String → Option String)
    (r : apichk.ApiRegistry) (path content msg : String)
    (hmiss : fs path = none) :
    apichk.loadFromJson parse fs r path = ⟨r, []⟩
    ∧ ∀ (fs2 : String → Option String),
        fs2 path = some content → parse content = .malformed msg →
        apichk.loadFromJson parse fs2 r path
          = ⟨r, ["Error loading registry: " ++ msg]⟩ := by
  constructor
  · unfold apichk.loadFromJson
    rw [hmiss]
  · intro fs2 h1 h2
    unfold apichk.loadFromJson
    rw [h1]
    dsimp only
    rw [h2]

/-- C8 witness: a load on a fresh empty registry from a missing file
yields the empty registry and no reported error. -/
theorem C8_load_missing_or_malformed_witness :
    apichk.loadFromJson (fun _ => apichk.RegistryParse.malformed "x")
        (fun _ => none) ⟨[]⟩ "api_registry.json"
      = ⟨⟨[]⟩, []⟩ :=
  (C8_load_missing_or_malformed (fun _ => apichk.RegistryParse.malformed "x")
      (fun _ => none) ⟨[]⟩ "api_registry.json" "" "x" rfl).1

/-- C9: with no successful ExecutionResult in the map, the Summarizer
returns the fixed no-data message without invoking the LLM; and
everything it ever collects comes from a success result, errors
excluded. -/
theorem C9_summary_no_data
    (llm : String → List (String × JsonVal) → Option String)
    (userPrompt : String)
    (results results2 : List (String × router.ExecutionResult))
    (nm : String) (dv : JsonVal)
    (hno : ∀ p ∈ results, p.2.status ≠ "success") :
    router.generateSummary llm userPrompt results
      = ⟨"No data was collected from services.", false⟩
    ∧ ((nm, dv) ∈ router.collectSuccessData results2 →
        ∃ r, (nm, r) ∈ results2 ∧ r.status = "success" ∧ r.data = dv) := by
  constructor
  · have hempty : router.collectSuccessData results = [] := by
      unfold router.collectSuccessData
      rw [List.filterMap_eq_nil_iff]
      intro p hp
      have := hno p hp
      simp [this]
    unfold router.generateSummary
    rw [hempty]
    rfl
  · intro h
    unfold router.collectSuccessData at h
    rcases List.mem_filterMap.mp h with ⟨p, hp, heq⟩
    by_cases hs : p.2.status == "success"
    · simp only [hs, if_true, Option.some.injEq] at heq
      refine ⟨p.2, ?_, ?_, ?_⟩
      · have h1 : p.1 = nm := congrArg Prod.fst heq
        rw [← h1]
        exact hp
      · simpa using hs
      · exact congrArg Prod.snd heq
    · simp only [hs, if_false] at heq
      cases heq

/-- C9 witness: a map holding only an error result produces the fixed
no-data message with the LLM not called. -/
theorem C9_summary_no_data_witness :
    router.generateSummary (fun _ _ => some "sum") "what is the weather"
        [("Weather Service",
          ⟨"Weather Service", "error", JsonVal.null, some "timeout"⟩)]
      = ⟨"No data was collected from services.", false⟩ :=
  (C9_summary_no_data (fun _ _ => some "sum") "what is the weather"
      [("Weather Service",
        ⟨"Weather Service", "error", JsonVal.null, some "timeout"⟩)]
      [] "" JsonVal.null
      (by
        intro p hp
        rw [List.mem_singleton] at hp
        rw [hp]
        decide)).1

/-- C10: a json.load failure in load_from_json happens before the
registry dict is cleared, so on malformed content the registry
contents afterwards are exactly what they were before the load. -/
theorem C10_load_atomic_on_decode_failure
    (parse : String → apichk.RegistryParse) (fs : String → Option String)
    (r : apichk.ApiRegistry) (path content msg : String)
    (hc : fs path = some content) (hm : parse content = .malformed msg) :
    (apichk.loadFromJson parse fs r path).registry = r := by
  unfold apichk.loadFromJson
  rw [hc]
  dsimp only
  rw [hm]

/-- C10 witness: a seeded registry survives a load over malformed
content untouched. -/
theorem C10_load_atomic_on_decode_failure_witness :
    (apichk.loadFromJson (fun _ => apichk.RegistryParse.malformed "boom")
        (fun _ => some "not json") apichk.seededRegistry
        "api_registry.json").registry
      = apichk.seededRegistry :=
  C10_load_atomic_on_decode_failure
    (fun _ => apichk.RegistryParse.malformed "boom")
    (fun _ => some "not json") apichk.seededRegistry
    "api_registry.json" "not json" "boom" rfl rfl

end Spec2Proof
